import Mathlib

/-!
Verification of the scheduled-delivery and log subsystem of a Discord
community bot with a web dashboard.  The development shallowly embeds the
relevant source functions: the SQLite tables become lists of records,
timestamps become naturals (the stored ISO strings are uniformly formatted,
so string order, `Date` order and numeric order agree), SQL `WHERE` clauses
become list filters, SQL `ORDER BY` becomes an insertion sort with the same
comparator, and the JavaScript handlers become pure functions that take the
outcome of the external Discord send as a parameter.
-/

namespace Bot

/-- A row of the `send_logs` table (schema in `database.js`, after the
`retry_count` migration). -/
structure SendRow where
  id : Nat
  kind : String
  source : Option String
  channel_id : Option String
  user_id : Option String
  content : Option String
  status : String
  error : Option String
  message_id : Option String
  ref_id : Option Nat
  retry_count : Nat
  sent_at : Nat
deriving Repr, DecidableEq

/-- A row of the `activity_logs` table (schema in `database.js`, after the
`metadata` migration). -/
structure ActivityRow where
  id : Nat
  kind : String
  source : Option String
  channel_id : Option String
  user_id : Option String
  status : Option String
  error : Option String
  message_id : Option String
  ref_id : Option Nat
  act : Option String
  emoji : Option String
  metadata : Option String
  created_at : Nat
deriving Repr, DecidableEq

/-- A row of the `log_rotation` table. -/
structure RotationRow where
  id : Nat
  table_name : String
  rotated_at : Nat
  records_archived : Nat
deriving Repr, DecidableEq

/-- The two log tables plus the rotation-marker table, i.e. the slice of the
database file that the log query, rotation and retry paths touch. -/
structure Db where
  send_logs : List SendRow
  activity_logs : List ActivityRow
  log_rotation : List RotationRow
deriving Repr, DecidableEq

/-- The row shape produced by the `SELECT` of the dashboard logs route:
both tables are projected to a common shape, with `sent_at` respectively
`created_at` exposed as `timestamp` and a `log_type` tag. -/
structure LogView where
  id : Nat
  kind : String
  source : Option String
  channel_id : Option String
  user_id : Option String
  content : Option String
  status : Option String
  error : Option String
  message_id : Option String
  ref_id : Option Nat
  timestamp : Nat
  log_type : String
deriving Repr, DecidableEq

/-- Projection of a `send_logs` row used by the logs route. -/
def sendToView (r : SendRow) : LogView :=
  ⟨r.id, r.kind, r.source, r.channel_id, r.user_id, r.content, some r.status,
    r.error, r.message_id, r.ref_id, r.sent_at, "send"⟩

/-- Projection of an `activity_logs` row used by the logs route; the route
selects the constant `'' as content`. -/
def actToView (r : ActivityRow) : LogView :=
  ⟨r.id, r.kind, r.source, r.channel_id, r.user_id, some "", r.status,
    r.error, r.message_id, r.ref_id, r.created_at, "activity"⟩

/-- The optional query-string filters of `GET /api/logs`; in the source an
absent or empty parameter is falsy and skips the corresponding condition,
which `Option` models. -/
structure LogFilter where
  kind : Option String
  status : Option String
  channel_id : Option String
  q : Option String
deriving Repr, DecidableEq

def emptyFilter : LogFilter := ⟨none, none, none, none⟩

/-- Does the list `needle` occur at the start of `hay`. -/
def subAt : List Char → List Char → Bool
  | [], _ => true
  | _ :: _, [] => false
  | a :: as, b :: bs => a == b && subAt as bs

/-- Does the list `needle` occur anywhere inside `hay`. -/
def hasSub : List Char → List Char → Bool
  | needle, [] => needle.isEmpty
  | needle, c :: cs => subAt needle (c :: cs) || hasSub needle cs

/-- SQL `col LIKE '%pat%'`: substring containment, ASCII case-insensitive
as in SQLite's default `LIKE`. -/
def likeContains (s pat : String) : Bool :=
  hasSub (pat.data.map Char.toLower) (s.data.map Char.toLower)

/-- SQL `LIKE` on a nullable column: `NULL LIKE x` is not a match. -/
def optLike (v : Option String) (pat : String) : Bool :=
  match v with
  | none => false
  | some s => likeContains s pat

/-- The `WHERE` conditions the logs route pushes onto `send_logs`:
`kind LIKE %k%`, `status = s`, `channel_id = c`, and the free-text search
over `content`, `kind` and `error`. -/
def sendCond (f : LogFilter) (r : SendRow) : Bool :=
  (f.kind.all fun k => likeContains r.kind k) &&
  (f.status.all fun s => r.status == s) &&
  (f.channel_id.all fun c => r.channel_id == some c) &&
  (f.q.all fun q => optLike r.content q || likeContains r.kind q || optLike r.error q)

/-- The `WHERE` conditions the logs route pushes onto `activity_logs`; the
free-text search here covers only `kind` and `error`. -/
def actCond (f : LogFilter) (r : ActivityRow) : Bool :=
  (f.kind.all fun k => likeContains r.kind k) &&
  (f.status.all fun s => r.status == some s) &&
  (f.channel_id.all fun c => r.channel_id == some c) &&
  (f.q.all fun q => likeContains r.kind q || optLike r.error q)

/-- Strict lexicographic order on `(timestamp, id)` sort keys. -/
def keyLt (a b : Nat × Nat) : Prop := a.1 < b.1 ∨ (a.1 = b.1 ∧ a.2 < b.2)

/-- Reflexive lexicographic order on `(timestamp, id)` sort keys. -/
def keyLe (a b : Nat × Nat) : Prop := a.1 < b.1 ∨ (a.1 = b.1 ∧ a.2 ≤ b.2)

instance : DecidableRel keyLt := fun a b => by
  unfold keyLt; exact inferInstance

instance : DecidableRel keyLe := fun a b => by
  unfold keyLe; exact inferInstance

/-- The sort key of a merged row. -/
def key (v : LogView) : Nat × Nat := (v.timestamp, v.id)

/-- `ORDER BY timestamp DESC, id DESC`: `a` may precede `b` iff `b`'s key is
at most `a`'s. -/
def viewOrd (a b : LogView) : Prop := keyLe (key b) (key a)

instance : DecidableRel viewOrd := fun a b => by
  unfold viewOrd; exact inferInstance

instance : IsTotal LogView viewOrd := by
  constructor
  intro a b
  unfold viewOrd keyLe
  omega

instance : IsTrans LogView viewOrd := by
  constructor
  intro a b c
  unfold viewOrd keyLe
  omega

/-- Descending sort by `(timestamp, id)`, as both the SQL `ORDER BY` and the
JavaScript comparator produce. -/
def sortDesc (l : List LogView) : List LogView := l.insertionSort viewOrd

/-- The pagination predicate: a row qualifies for the page of cursor
`(ct, cid)` iff `timestamp < ct OR (timestamp = ct AND id < cid)`; with no
cursor every row qualifies. -/
def cursorKeep (c : Option (Nat × Nat)) (k : Nat × Nat) : Bool :=
  match c with
  | none => true
  | some ck => decide (keyLt k ck)

/-- The filtered, cursored, sorted `send_logs` page source of the logs
route. -/
def sendViewsF (db : Db) (f : LogFilter) (c : Option (Nat × Nat)) : List LogView :=
  sortDesc ((db.send_logs.filter fun r =>
    sendCond f r && cursorKeep c (r.sent_at, r.id)).map sendToView)

/-- The filtered, cursored, sorted `activity_logs` page source of the logs
route. -/
def actViewsF (db : Db) (f : LogFilter) (c : Option (Nat × Nat)) : List LogView :=
  sortDesc ((db.activity_logs.filter fun r =>
    actCond f r && cursorKeep c (r.created_at, r.id)).map actToView)

/-- The merged, re-sorted union of the two page sources (`allLogs` in the
route). -/
def mergedLogs (db : Db) (f : LogFilter) (c : Option (Nat × Nat)) : List LogView :=
  sortDesc (sendViewsF db f c ++ actViewsF db f c)

/-- The response shape of `GET /api/logs`.  The cursor string
`` `${timestamp}_${id}` `` round-trips through `split('_')`/`parseInt`, so it
is modelled directly as the `(timestamp, id)` pair it encodes. -/
structure QueryResult where
  logs : List LogView
  hasMore : Bool
  nextCursor : Option (Nat × Nat)
deriving Repr, DecidableEq

/-- `allLogs.slice(0, limit + 1)` of the logs route. -/
def pageSlice (db : Db) (f : LogFilter) (c : Option (Nat × Nat)) (limit : Nat) :
    List LogView :=
  (mergedLogs db f c).take (limit + 1)

/-- `hasMore = logs.length > limit` of the logs route. -/
def pageHasMore (db : Db) (f : LogFilter) (c : Option (Nat × Nat)) (limit : Nat) :
    Bool :=
  decide (limit < (pageSlice db f c limit).length)

/-- The returned page: the slice, with the probe row popped when it is
present. -/
def pageLogs (db : Db) (f : LogFilter) (c : Option (Nat × Nat)) (limit : Nat) :
    List LogView :=
  if limit < (pageSlice db f c limit).length
  then (pageSlice db f c limit).dropLast
  else pageSlice db f c limit

/-- `nextCursor`: when `hasMore` and the page is nonempty, the
`(timestamp, id)` of the last row of the returned page. -/
def pageNextCursor (db : Db) (f : LogFilter) (c : Option (Nat × Nat)) (limit : Nat) :
    Option (Nat × Nat) :=
  if pageHasMore db f c limit then
    match (pageLogs db f c limit).getLast? with
    | some v => some (key v)
    | none => none
  else none

/-- `GET /api/logs`: query both tables with the filters and the cursor
predicate, merge and re-sort, take `limit + 1` rows, report `hasMore` when
the extra row exists and drop it, and derive `nextCursor` from the last row
actually returned. -/
def queryLogs (db : Db) (f : LogFilter) (c : Option (Nat × Nat)) (limit : Nat) :
    QueryResult :=
  ⟨pageLogs db f c limit, pageHasMore db f c limit, pageNextCursor db f c limit⟩

/-- Repeatedly call `queryLogs`, feeding each returned `nextCursor` back in,
collecting the page results; `fuel` bounds the number of calls. -/
def collectPages : Nat → Db → LogFilter → Option (Nat × Nat) → Nat → List QueryResult
  | 0, _, _, _, _ => []
  | fuel + 1, db, f, c, limit =>
    let r := queryLogs db f c limit
    match r.nextCursor with
    | none => [r]
    | some c2 => r :: collectPages fuel db f (some c2) limit

/-- All rows of both tables, projected to the merged shape. -/
def allViews (db : Db) : List LogView :=
  db.send_logs.map sendToView ++ db.activity_logs.map actToView

/-- Strictly-descending adjacency: a row strictly precedes another iff the
other's key is lexicographically smaller. -/
def sdesc (a b : LogView) : Prop := keyLt (key b) (key a)

/-- The cursor predicate lifted to merged rows. -/
def keepV (c : Option (Nat × Nat)) (v : LogView) : Bool := cursorKeep c (key v)

/-- The whole logical audit stream in query order. -/
def sortedAll (db : Db) : List LogView := sortDesc (allViews db)

/-- All timestamps across both tables are pairwise distinct. -/
def tsNodup (db : Db) : Prop := ((allViews db).map LogView.timestamp).Nodup

/-- The concatenation of the pages of a page-result sequence. -/
def joinedLogs (rs : List QueryResult) : List LogView :=
  (rs.map QueryResult.logs).flatten

theorem keyLt_asymm {a b : Nat × Nat} : keyLt a b → ¬ keyLt b a := by
  unfold keyLt; omega

theorem keyLt_irrefl (a : Nat × Nat) : ¬ keyLt a a := by
  unfold keyLt; omega

theorem keyLt_trans {a b c : Nat × Nat} : keyLt a b → keyLt b c → keyLt a c := by
  unfold keyLt; omega

theorem keyLe_ne_lt {a b : Nat × Nat} (h : keyLe a b) (hne : a ≠ b) : keyLt a b := by
  obtain ⟨a1, a2⟩ := a
  obtain ⟨b1, b2⟩ := b
  unfold keyLe at h
  unfold keyLt
  have hne2 : ¬ (a1 = b1 ∧ a2 = b2) := by
    intro hh
    exact hne (by rw [hh.1, hh.2])
  simp only at h ⊢
  omega

instance : IsAntisymm LogView sdesc :=
  ⟨fun _ _ h1 h2 => absurd h1 (keyLt_asymm h2)⟩

theorem sortDesc_perm (l : List LogView) : (sortDesc l).Perm l :=
  List.perm_insertionSort viewOrd l

theorem sortDesc_sorted (l : List LogView) : (sortDesc l).Pairwise viewOrd :=
  List.sorted_insertionSort viewOrd l

/-- A sorted list whose keys are pairwise distinct is strictly
descending. -/
theorem pairwise_sdesc_of_sorted {l : List LogView} (hs : l.Pairwise viewOrd)
    (hn : (l.map key).Nodup) : l.Pairwise sdesc := by
  have hne : l.Pairwise (fun a b => key a ≠ key b) := List.pairwise_map.mp hn
  refine (hs.and hne).imp ?_
  intro a b hab
  exact keyLe_ne_lt hab.1 (fun he => hab.2 he.symm)

theorem keyNodup_of_tsNodup {db : Db} (h : tsNodup db) :
    ((allViews db).map key).Nodup := by
  unfold tsNodup at h
  have heq : (allViews db).map LogView.timestamp
      = ((allViews db).map key).map Prod.fst := by
    rw [List.map_map]; rfl
  rw [heq] at h
  exact h.of_map _

theorem sortedAll_perm (db : Db) : (sortedAll db).Perm (allViews db) :=
  sortDesc_perm _

theorem sortedAll_pairwise {db : Db} (h : tsNodup db) :
    (sortedAll db).Pairwise sdesc := by
  refine pairwise_sdesc_of_sorted (sortDesc_sorted _) ?_
  have hp : ((sortedAll db).map key).Perm ((allViews db).map key) :=
    (sortedAll_perm db).map key
  exact hp.nodup_iff.mpr (keyNodup_of_tsNodup h)

theorem sendCond_empty (r : SendRow) : sendCond emptyFilter r = true := by
  simp [sendCond, emptyFilter]

theorem actCond_empty (r : ActivityRow) : actCond emptyFilter r = true := by
  simp [actCond, emptyFilter]

theorem sendViewsF_empty (db : Db) (c : Option (Nat × Nat)) :
    sendViewsF db emptyFilter c
      = sortDesc ((db.send_logs.map sendToView).filter (keepV c)) := by
  unfold sendViewsF
  congr 1
  rw [List.filter_map]
  congr 1

theorem actViewsF_empty (db : Db) (c : Option (Nat × Nat)) :
    actViewsF db emptyFilter c
      = sortDesc ((db.activity_logs.map actToView).filter (keepV c)) := by
  unfold actViewsF
  congr 1
  rw [List.filter_map]
  congr 1

theorem mergedLogs_perm_empty (db : Db) (c : Option (Nat × Nat)) :
    (mergedLogs db emptyFilter c).Perm ((allViews db).filter (keepV c)) := by
  unfold mergedLogs allViews
  refine (sortDesc_perm _).trans ?_
  rw [List.filter_append]
  rw [sendViewsF_empty, actViewsF_empty]
  exact (sortDesc_perm _).append (sortDesc_perm _)

/-- With all timestamps distinct, the merged page source of a cursor is
exactly the cursor-qualified suffix of the full sorted stream. -/
theorem mergedLogs_empty_eq {db : Db} (h : tsNodup db) (c : Option (Nat × Nat)) :
    mergedLogs db emptyFilter c = (sortedAll db).filter (keepV c) := by
  have hperm : (mergedLogs db emptyFilter c).Perm ((sortedAll db).filter (keepV c)) :=
    (mergedLogs_perm_empty db c).trans ((sortedAll_perm db).symm.filter _)
  have hs1 : (mergedLogs db emptyFilter c).Pairwise sdesc := by
    refine pairwise_sdesc_of_sorted (sortDesc_sorted _) ?_
    have hsub : List.Sublist (((allViews db).filter (keepV c)).map key)
        ((allViews db).map key) :=
      (List.filter_sublist _).map key
    have hn : (((allViews db).filter (keepV c)).map key).Nodup :=
      hsub.nodup (keyNodup_of_tsNodup h)
    have hp : ((mergedLogs db emptyFilter c).map key).Perm
        (((allViews db).filter (keepV c)).map key) :=
      (mergedLogs_perm_empty db c).map key
    exact hp.nodup_iff.mpr hn
  have hs2 : ((sortedAll db).filter (keepV c)).Pairwise sdesc :=
    (sortedAll_pairwise h).filter _
  exact List.eq_of_perm_of_sorted hperm hs1 hs2

/-- In a strictly descending list, the rows strictly below the `i`-th key
are exactly the rows after position `i`. -/
theorem filter_keyLt_eq_drop :
    ∀ (M : List LogView), M.Pairwise sdesc → ∀ (i : Nat) (hi : i < M.length),
      M.filter (fun v => decide (keyLt (key v) (key (M.get ⟨i, hi⟩)))) = M.drop (i + 1) := by
  intro M
  induction M with
  | nil => intro _ i hi; exact absurd hi (Nat.not_lt_zero _)
  | cons m t ihp =>
    intro hM i hi
    have hhead := (List.pairwise_cons.mp hM).1
    have htail := (List.pairwise_cons.mp hM).2
    cases i with
    | zero =>
      have hget : (m :: t).get ⟨0, hi⟩ = m := rfl
      have hm : decide (keyLt (key m) (key m)) = false :=
        decide_eq_false (keyLt_irrefl _)
      rw [hget, List.filter_cons, hm]
      simp only [Bool.false_eq_true, if_false, List.drop_succ_cons, List.drop_zero]
      apply List.filter_eq_self.mpr
      intro v hv
      exact decide_eq_true (hhead v hv)
    | succ j =>
      have hj : j < t.length := Nat.lt_of_succ_lt_succ hi
      have hget : (m :: t).get ⟨j + 1, hi⟩ = t.get ⟨j, hj⟩ := rfl
      have hmem : t.get ⟨j, hj⟩ ∈ t := List.get_mem t _ _
      have hmf : decide (keyLt (key m) (key (t.get ⟨j, hj⟩))) = false :=
        decide_eq_false (keyLt_asymm (hhead _ hmem))
      rw [hget, List.filter_cons, hmf]
      simp only [Bool.false_eq_true, if_false]
      rw [ihp htail j hj]
      rfl

theorem joinedLogs_cons (r : QueryResult) (rs : List QueryResult) :
    joinedLogs (r :: rs) = r.logs ++ joinedLogs rs := by
  simp [joinedLogs]

theorem take_dropLast_take (l : List LogView) (k : Nat) (h : k + 1 ≤ l.length) :
    (l.take (k + 1)).dropLast = l.take k := by
  have h1 : min (k + 1) l.length = k + 1 := by omega
  rw [List.dropLast_eq_take, List.length_take, h1, List.take_take]
  congr 1
  omega

theorem getLast?_take_eq (l : List LogView) (k : Nat) (h0 : 0 < k)
    (h : k ≤ l.length) :
    (l.take k).getLast? = some (l.get ⟨k - 1, by omega⟩) := by
  rw [List.getLast?_eq_getElem?, List.length_take]
  have h1 : min k l.length = k := by omega
  rw [h1]
  rw [List.getElem?_take_of_lt (by omega : k - 1 < k)]
  rw [List.getElem?_eq_getElem (by omega : k - 1 < l.length)]
  rw [List.get_eq_getElem]

/-- The pagination predicate of a later cursor refines that of the current
one: querying with the key of a row that qualified under cursor `c` selects
exactly the rows strictly below that key. -/
theorem filter_keep_step {L : List LogView} {c : Option (Nat × Nat)}
    {m : LogView} (hm : keepV c m = true) :
    L.filter (keepV (some (key m)))
      = (L.filter (keepV c)).filter (fun v => decide (keyLt (key v) (key m))) := by
  rw [List.filter_filter]
  refine List.filter_congr ?_
  intro v _
  unfold keepV cursorKeep
  cases c with
  | none => simp [keepV, cursorKeep]
  | some ck =>
    unfold keepV cursorKeep at hm
    by_cases hv : keyLt (key v) (key m)
    · have hvck : keyLt (key v) ck := keyLt_trans hv (of_decide_eq_true hm)
      simp [hv, hvck]
    · simp [hv]

/-- A `queryLogs` call whose qualified stream fits in the limit returns the
whole stream, `hasMore = false` and no cursor. -/
theorem queryLogs_last_page {db : Db} (h : tsNodup db) {c : Option (Nat × Nat)}
    {k : Nat} (hle : ((sortedAll db).filter (keepV c)).length ≤ k) :
    queryLogs db emptyFilter c k
      = ⟨(sortedAll db).filter (keepV c), false, none⟩ := by
  set M := (sortedAll db).filter (keepV c) with hMdef
  have hmerged : mergedLogs db emptyFilter c = M := mergedLogs_empty_eq h c
  have hslice : pageSlice db emptyFilter c k = M := by
    unfold pageSlice
    rw [hmerged]
    exact List.take_of_length_le (by omega)
  have hnm : ¬ k < (pageSlice db emptyFilter c k).length := by
    rw [hslice]; omega
  have hhm : pageHasMore db emptyFilter c k = false := by
    unfold pageHasMore
    exact decide_eq_false hnm
  have hlogs : pageLogs db emptyFilter c k = M := by
    unfold pageLogs
    rw [if_neg hnm, hslice]
  have hnc : pageNextCursor db emptyFilter c k = none := by
    unfold pageNextCursor
    rw [hhm]
    simp
  unfold queryLogs
  rw [hlogs, hhm, hnc]

/-- A `queryLogs` call whose qualified stream exceeds the limit returns the
first `k` qualified rows, `hasMore = true`, and the key of the `k`-th row as
the cursor. -/
theorem queryLogs_more_page {db : Db} (h : tsNodup db) {c : Option (Nat × Nat)}
    {k : Nat} (hk : 0 < k)
    (hgt : k < ((sortedAll db).filter (keepV c)).length) :
    queryLogs db emptyFilter c k
      = ⟨((sortedAll db).filter (keepV c)).take k, true,
          some (key (((sortedAll db).filter (keepV c)).get ⟨k - 1, by omega⟩))⟩ := by
  set M := (sortedAll db).filter (keepV c) with hMdef
  have hmerged : mergedLogs db emptyFilter c = M := mergedLogs_empty_eq h c
  have hslen : (pageSlice db emptyFilter c k).length = k + 1 := by
    unfold pageSlice
    rw [hmerged, List.length_take]
    omega
  have hlt : k < (pageSlice db emptyFilter c k).length := by omega
  have hhm : pageHasMore db emptyFilter c k = true := by
    unfold pageHasMore
    exact decide_eq_true hlt
  have hlogs : pageLogs db emptyFilter c k = M.take k := by
    unfold pageLogs
    rw [if_pos hlt]
    unfold pageSlice
    rw [hmerged]
    exact take_dropLast_take M k (by omega)
  have hnc : pageNextCursor db emptyFilter c k
      = some (key (M.get ⟨k - 1, by omega⟩)) := by
    unfold pageNextCursor
    rw [hhm, hlogs, getLast?_take_eq M k hk (by omega)]
    simp
  unfold queryLogs
  rw [hlogs, hhm, hnc]

/-- Main pagination invariant: starting from any cursor whose qualified
stream has fewer rows than `fuel`, following `nextCursor` to exhaustion
yields exactly the qualified stream, with `hasMore = true` on every page but
the last and `hasMore = false` on the last. -/
theorem collect_spec (db : Db) (k : Nat) (hk : 0 < k) (h : tsNodup db) :
    ∀ (fuel : Nat) (c : Option (Nat × Nat)),
      ((sortedAll db).filter (keepV c)).length < fuel →
      collectPages fuel db emptyFilter c k ≠ [] ∧
      joinedLogs (collectPages fuel db emptyFilter c k)
        = (sortedAll db).filter (keepV c) ∧
      (∀ r ∈ (collectPages fuel db emptyFilter c k).dropLast, r.hasMore = true) ∧
      (∀ r, (collectPages fuel db emptyFilter c k).getLast? = some r →
        r.hasMore = false) := by
  intro fuel
  induction fuel with
  | zero =>
    intro c hlen
    exact absurd hlen (Nat.not_lt_zero _)
  | succ n ih =>
    intro c hlen
    by_cases hcase : ((sortedAll db).filter (keepV c)).length ≤ k
    · have hq := queryLogs_last_page h (c := c) (k := k) hcase
      have hcoll : collectPages (n + 1) db emptyFilter c k
          = [⟨(sortedAll db).filter (keepV c), false, none⟩] := by
        conv_lhs => unfold collectPages
        rw [hq]
      rw [hcoll]
      refine ⟨by simp, by simp [joinedLogs], by simp, ?_⟩
      intro r hr
      have hr2 : (⟨(sortedAll db).filter (keepV c), false, none⟩ : QueryResult)
          = r := by simpa using hr
      rw [← hr2]
    · push_neg at hcase
      have hk1 : k - 1 < ((sortedAll db).filter (keepV c)).length := by omega
      have hq := queryLogs_more_page h hk (c := c) hcase
      set M := (sortedAll db).filter (keepV c) with hMdef
      set m := M.get ⟨k - 1, hk1⟩ with hmdef
      have hmMem : m ∈ M := List.get_mem M _ _
      have hkeep : keepV c m = true := (List.mem_filter.mp hmMem).2
      have hstep : (sortedAll db).filter (keepV (some (key m))) = M.drop k := by
        rw [filter_keep_step hkeep, ← hMdef]
        rw [filter_keyLt_eq_drop M ((sortedAll_pairwise h).filter _) (k - 1) hk1]
        congr 1
        omega
      have hlen2 : ((sortedAll db).filter (keepV (some (key m)))).length < n := by
        rw [hstep, List.length_drop]
        omega
      obtain ⟨hne, hjoin, hflag1, hflag2⟩ := ih (some (key m)) hlen2
      have hcoll : collectPages (n + 1) db emptyFilter c k
          = ⟨M.take k, true, some (key m)⟩
              :: collectPages n db emptyFilter (some (key m)) k := by
        conv_lhs => unfold collectPages
        rw [hq]
      rw [hcoll]
      obtain ⟨a, t, hat⟩ : ∃ a t,
          collectPages n db emptyFilter (some (key m)) k = a :: t := by
        cases hrest : collectPages n db emptyFilter (some (key m)) k with
        | nil => exact absurd hrest hne
        | cons a t => exact ⟨a, t, rfl⟩
      refine ⟨by simp, ?_, ?_, ?_⟩
      · rw [joinedLogs_cons, hjoin, hstep]
        exact List.take_append_drop k M
      · intro r hr
        rw [hat, List.dropLast_cons_of_ne_nil (List.cons_ne_nil a t)] at hr
        rcases List.mem_cons.mp hr with hr1 | hr1
        · rw [hr1]
        · apply hflag1
          rw [hat]
          exact hr1
      · intro r hr
        rw [hat, List.getLast?_cons_cons] at hr
        apply hflag2
        rw [hat]
        exact hr

/-- C2: repeatedly calling `queryLogs` with `limit = k`, following
`nextCursor`, over rows with pairwise-distinct timestamps, yields every row
of both tables exactly once, in strictly descending `(timestamp, id)` order
across the concatenated pages, with `hasMore = true` on every page except
the last and `hasMore = false` on the last. -/
theorem pagination_roundtrip_exact (db : Db) (k fuel : Nat) (hk : 0 < k)
    (h : tsNodup db) (hfuel : (allViews db).length < fuel) :
    collectPages fuel db emptyFilter none k ≠ [] ∧
    (joinedLogs (collectPages fuel db emptyFilter none k)).Perm (allViews db) ∧
    (joinedLogs (collectPages fuel db emptyFilter none k)).Pairwise sdesc ∧
    (∀ r ∈ (collectPages fuel db emptyFilter none k).dropLast,
      r.hasMore = true) ∧
    (∀ r, (collectPages fuel db emptyFilter none k).getLast? = some r →
      r.hasMore = false) := by
  have hfilter : (sortedAll db).filter (keepV none) = sortedAll db :=
    List.filter_eq_self.mpr (fun a _ => rfl)
  have hlen : ((sortedAll db).filter (keepV none)).length < fuel := by
    rw [hfilter, (sortedAll_perm db).length_eq]
    exact hfuel
  obtain ⟨hne, hjoin, hflag1, hflag2⟩ := collect_spec db k hk h fuel none hlen
  rw [hjoin, hfilter]
  exact ⟨hne, sortedAll_perm db, sortedAll_pairwise h, hflag1, hflag2⟩

/-- Two send rows and one activity row with pairwise-distinct timestamps. -/
def dbW2 : Db :=
  ⟨[⟨1, "send_once", none, none, none, none, "sent", none, none, none, 0, 30⟩,
    ⟨2, "reminder", none, none, none, none, "failed", none, none, none, 0, 10⟩],
   [⟨1, "activity:bot_started", none, none, none, none, none, none, none,
     none, none, none, 20⟩],
   []⟩

theorem pagination_roundtrip_exact_witness :
    collectPages 4 dbW2 emptyFilter none 2 ≠ [] ∧
    (joinedLogs (collectPages 4 dbW2 emptyFilter none 2)).Perm (allViews dbW2) :=
  ⟨(pagination_roundtrip_exact dbW2 2 4 (by decide)
      (show ((allViews dbW2).map LogView.timestamp).Nodup by decide)
      (by decide)).1,
   (pagination_roundtrip_exact dbW2 2 4 (by decide)
      (show ((allViews dbW2).map LogView.timestamp).Nodup by decide)
      (by decide)).2.1⟩

/-- C3 amended: `hasMore` is true iff the merged, filtered result before
truncation has more than `limit` rows; when `hasMore` is true, the page is
the first `limit` merged rows (the probe row is dropped) and `nextCursor`
encodes the `(timestamp, id)` of the `limit`-th merged row, i.e. the last
row actually returned — not the `(limit + 1)`-th row. -/
theorem hasMore_nextCursor_spec (db : Db) (f : LogFilter)
    (c : Option (Nat × Nat)) (limit : Nat) :
    ((queryLogs db f c limit).hasMore = true ↔
      limit < (mergedLogs db f c).length) ∧
    ((queryLogs db f c limit).hasMore = true →
      (queryLogs db f c limit).logs = (mergedLogs db f c).take limit ∧
      (queryLogs db f c limit).nextCursor
        = ((mergedLogs db f c).take limit).getLast?.map key) := by
  have h1 : (queryLogs db f c limit).hasMore = true ↔
      limit < (mergedLogs db f c).length := by
    show pageHasMore db f c limit = true ↔ _
    unfold pageHasMore pageSlice
    rw [decide_eq_true_eq, List.length_take]
    omega
  refine ⟨h1, ?_⟩
  intro hm
  have hlt := h1.mp hm
  have hlogs : pageLogs db f c limit = (mergedLogs db f c).take limit := by
    unfold pageLogs pageSlice
    rw [if_pos (by rw [List.length_take]; omega)]
    exact take_dropLast_take _ _ (by omega)
  have hm2 : pageHasMore db f c limit = true := hm
  refine ⟨hlogs, ?_⟩
  show pageNextCursor db f c limit = _
  unfold pageNextCursor
  rw [hm2, if_pos rfl, hlogs]
  cases hgl : ((mergedLogs db f c).take limit).getLast? with
  | none => rfl
  | some v => rfl

/-- Two send rows: ids 1 and 2 with timestamps 2 and 1. -/
def db3 : Db :=
  ⟨[⟨1, "send_once", none, none, none, none, "sent", none, none, none, 0, 2⟩,
    ⟨2, "send_once", none, none, none, none, "sent", none, none, none, 0, 1⟩],
   [], []⟩

/-- With `limit = 1` on `db3`, `hasMore` is true, the second merged row (the
`(limit + 1)`-th) has key `(1, 2)`, but the returned `nextCursor` is
`(2, 1)`, the key of the first (last returned) row: the claim that
`nextCursor` encodes the `(limit + 1)`-th row is false. -/
theorem nextCursor_not_second_row :
    (queryLogs db3 emptyFilter none 1).hasMore = true ∧
    ((mergedLogs db3 emptyFilter none)[1]?).map key = some (1, 2) ∧
    (queryLogs db3 emptyFilter none 1).nextCursor = some (2, 1) ∧
    (queryLogs db3 emptyFilter none 1).nextCursor ≠ some (1, 2) := by
  decide

theorem hasMore_nextCursor_spec_witness :
    (queryLogs db3 emptyFilter none 1).logs
      = (mergedLogs db3 emptyFilter none).take 1 ∧
    (queryLogs db3 emptyFilter none 1).nextCursor
      = ((mergedLogs db3 emptyFilter none).take 1).getLast?.map key :=
  (hasMore_nextCursor_spec db3 emptyFilter none 1).2 (by decide)

/-- The next AUTOINCREMENT id of the `send_logs` table. -/
def nextSendId (t : List SendRow) : Nat := (t.map SendRow.id).foldr max 0 + 1

/-- The next AUTOINCREMENT id of the `activity_logs` table. -/
def nextActId (t : List ActivityRow) : Nat := (t.map ActivityRow.id).foldr max 0 + 1

/-- `db.logSend(kind, data)` of `database.js`: a single `INSERT` into
`send_logs` with the caller's fields (`retry_count` defaults to 0 at the
call sites modelled here). -/
def logSend (t : List SendRow) (kind : String)
    (source channel_id user_id content : Option String) (status : String)
    (error message_id : Option String) (ref_id : Option Nat)
    (retry_count : Nat) (now : Nat) : List SendRow :=
  t ++ [⟨nextSendId t, kind, source, channel_id, user_id, content, status,
    error, message_id, ref_id, retry_count, now⟩]

/-- `db.logActivity(kind, data)` of `database.js`: a single `INSERT` into
`activity_logs`; an absent `status` defaults to `'success'`. -/
def logActivity (t : List ActivityRow) (kind : String)
    (source channel_id user_id status error message_id : Option String)
    (ref_id : Option Nat) (act emoji metadata : Option String) (now : Nat) :
    List ActivityRow :=
  t ++ [⟨nextActId t, kind, source, channel_id, user_id,
    some (status.getD "success"), error, message_id, ref_id, act, emoji,
    metadata, now⟩]

/-- Outcome of the external `channel.send(...)` call. -/
inductive SendOutcome where
  | sent (message_id : String)
  | err (msg : String)
deriving Repr, DecidableEq

/-- HTTP responses of the bot endpoints modelled here. -/
inductive HttpResp where
  | ok (message_id : String)
  | notFound (msg : String)
  | serverError (msg : String)
deriving Repr, DecidableEq

/-- One firing of the cron callback installed by `scheduleReminder`:
if the channel resolves, send and log `status = 'sent'` with the message id,
or log `status = 'failed'` with the error if the send throws; if the channel
does not resolve, the callback does nothing at all. -/
def reminderFire (t : List SendRow) (id : Nat)
    (content channelId userId : String) (channelFound : Bool)
    (outcome : SendOutcome) (now : Nat) : List SendRow :=
  if channelFound then
    match outcome with
    | .sent mid =>
        logSend t "reminder" (some "cron") (some channelId) (some userId)
          (some ("⏰ **Reminder:** " ++ content)) "sent" none (some mid)
          (some id) 0 now
    | .err e =>
        logSend t "reminder" (some "cron") (some channelId) (some userId)
          (some ("⏰ **Reminder:** " ++ content)) "failed" (some e) none
          (some id) 0 now
  else t

/-- One firing of the cron callback installed by `scheduleTask`; same shape
as `reminderFire` with the task prefix and kind. -/
def taskFire (t : List SendRow) (id : Nat)
    (content channelId userId : String) (channelFound : Bool)
    (outcome : SendOutcome) (now : Nat) : List SendRow :=
  if channelFound then
    match outcome with
    | .sent mid =>
        logSend t "task" (some "cron") (some channelId) (some userId)
          (some ("📝 **Task:** " ++ content)) "sent" none (some mid)
          (some id) 0 now
    | .err e =>
        logSend t "task" (some "cron") (some channelId) (some userId)
          (some ("📝 **Task:** " ++ content)) "failed" (some e) none
          (some id) 0 now
  else t

/-- `POST /send-once`: 404 with no log when the channel does not resolve;
otherwise send and log `status = 'sent'` (kind `send_once`, no `ref_id`) or
log `status = 'failed'` and answer 500 when the send throws. -/
def sendOnce (t : List SendRow) (content channelId : String)
    (channelFound : Bool) (outcome : SendOutcome) (now : Nat) :
    List SendRow × HttpResp :=
  if channelFound then
    match outcome with
    | .sent mid =>
        (logSend t "send_once" (some "http_api") (some channelId) none
          (some content) "sent" none (some mid) none 0 now, .ok mid)
    | .err e =>
        (logSend t "send_once" (some "http_api") (some channelId) none
          (some content) "failed" (some e) none none 0 now, .serverError e)
  else (t, .notFound "Channel not found")

/-- C1 counterexample: with the target channel unresolvable, a scheduled
reminder fire, a scheduled task fire and `POST /send-once` all append no
SendLogEntry at all, refuting the claim that exactly one entry is appended
regardless of the send outcome. -/
theorem fire_unresolved_channel_logs_nothing :
    (reminderFire [] 1 "standup" "chan" "user" false
      (SendOutcome.sent "m1") 0).length = 0 ∧
    (taskFire [] 1 "standup" "chan" "user" false
      (SendOutcome.sent "m1") 0).length = 0 ∧
    ((sendOnce [] "hello" "chan" false (SendOutcome.sent "m1") 0).1).length = 0 ∧
    ¬ (reminderFire [] 1 "standup" "chan" "user" false
      (SendOutcome.sent "m1") 0).length = 1 := by
  decide

/-- C1 amended: when the target channel resolves, every delivery appends
exactly one SendLogEntry — `status = "sent"` with the external message
reference on success, `status = "failed"` with the error description on
failure — leaving prior rows intact; when the channel cannot be resolved no
entry is appended and `/send-once` answers 404. -/
theorem delivery_logging_spec (t : List SendRow) (id : Nat)
    (content channelId userId mid e : String) (now : Nat) :
    (reminderFire t id content channelId userId true (.sent mid) now
      = t ++ [⟨nextSendId t, "reminder", some "cron", some channelId,
          some userId, some ("⏰ **Reminder:** " ++ content), "sent", none,
          some mid, some id, 0, now⟩]) ∧
    (reminderFire t id content channelId userId true (.err e) now
      = t ++ [⟨nextSendId t, "reminder", some "cron", some channelId,
          some userId, some ("⏰ **Reminder:** " ++ content), "failed",
          some e, none, some id, 0, now⟩]) ∧
    (taskFire t id content channelId userId true (.sent mid) now
      = t ++ [⟨nextSendId t, "task", some "cron", some channelId,
          some userId, some ("📝 **Task:** " ++ content), "sent", none,
          some mid, some id, 0, now⟩]) ∧
    (taskFire t id content channelId userId true (.err e) now
      = t ++ [⟨nextSendId t, "task", some "cron", some channelId,
          some userId, some ("📝 **Task:** " ++ content), "failed",
          some e, none, some id, 0, now⟩]) ∧
    ((sendOnce t content channelId true (.sent mid) now).1
      = t ++ [⟨nextSendId t, "send_once", some "http_api", some channelId,
          none, some content, "sent", none, some mid, none, 0, now⟩]) ∧
    ((sendOnce t content channelId true (.err e) now).1
      = t ++ [⟨nextSendId t, "send_once", some "http_api", some channelId,
          none, some content, "failed", some e, none, none, 0, now⟩]) ∧
    (reminderFire t id content channelId userId false (.sent mid) now = t) ∧
    (taskFire t id content channelId userId false (.err e) now = t) ∧
    (sendOnce t content channelId false (.sent mid) now
      = (t, .notFound "Channel not found")) :=
  ⟨rfl, rfl, rfl, rfl, rfl, rfl, rfl, rfl, rfl⟩

/-- A live cron job handle: its map key and whether it is running. -/
structure CronJob where
  jobId : Nat
  jobKey : String
  running : Bool
deriving Repr, DecidableEq

/-- The scheduler state: the cron jobs ever created (with their running
flag) and the `cronJobs` map from key to the job it currently holds. -/
structure CronState where
  jobs : List CronJob
  nextId : Nat
  registry : List (String × Nat)
deriving Repr, DecidableEq

def initCron : CronState := ⟨[], 0, []⟩

/-- `Map.set`: overwrite the entry for `k` or add one. -/
def setReg (reg : List (String × Nat)) (k : String) (v : Nat) :
    List (String × Nat) :=
  if reg.any (fun p => p.1 == k) then
    reg.map (fun p => if p.1 == k then (k, v) else p)
  else reg ++ [(k, v)]

/-- `cron.schedule(...)` followed by `cronJobs.set(key, job)` and
`job.start()`, as `scheduleReminder`/`scheduleTask` do: a fresh running job
is created and the map entry is overwritten — the job previously held under
the key, if any, is never stopped. -/
def registerJob (s : CronState) (k : String) : CronState :=
  ⟨s.jobs ++ [⟨s.nextId, k, true⟩], s.nextId + 1, setReg s.registry k s.nextId⟩

def stopJob (jobs : List CronJob) (jid : Nat) : List CronJob :=
  jobs.map fun j => if j.jobId == jid then ⟨j.jobId, j.jobKey, false⟩ else j

/-- The delete path: if the map holds the key, stop that job and remove the
entry; otherwise do nothing. -/
def unregisterJob (s : CronState) (k : String) : CronState :=
  match s.registry.find? (fun p => p.1 == k) with
  | some p => ⟨stopJob s.jobs p.2, s.nextId, s.registry.filter fun q => !(q.1 == k)⟩
  | none => s

/-- The number of running cron jobs attached to a `(kind, id)` key — each
fires at that key's scheduled instants. -/
def liveTriggers (s : CronState) (k : String) : Nat :=
  (s.jobs.filter fun j => j.jobKey == k && j.running).length

def reminderKey (id : Nat) : String := "reminder_" ++ toString id

def taskKey (id : Nat) : String := "task_" ++ toString id

/-- The register/unregister operations the bot performs on the registry. -/
inductive SchedOp where
  | regReminder (id : Nat)
  | regTask (id : Nat)
  | unreg (k : String)
deriving Repr, DecidableEq

def applyOp (s : CronState) : SchedOp → CronState
  | .regReminder id => registerJob s (reminderKey id)
  | .regTask id => registerJob s (taskKey id)
  | .unreg k => unregisterJob s k

def runOps (s : CronState) (ops : List SchedOp) : CronState :=
  ops.foldl applyOp s

/-- C4 counterexample: registering reminder 5 twice leaves two running
triggers for `reminder_5`, refuting the claim that re-registration first
cancels the existing trigger so no `(kind, id)` can fire twice. -/
theorem reregister_leaves_duplicate_trigger :
    liveTriggers (runOps initCron
      [SchedOp.regReminder 5, SchedOp.regReminder 5]) (reminderKey 5) = 2 ∧
    ¬ liveTriggers (runOps initCron
      [SchedOp.regReminder 5, SchedOp.regReminder 5]) (reminderKey 5) ≤ 1 := by
  decide

/-- C4 amended: registering a `(kind, id)` key never cancels anything: every
job running before is still running (and present) afterwards, and the count
of live triggers for the registered key grows by exactly one — so
re-registering an already-live key yields two live triggers. -/
theorem register_does_not_cancel (s : CronState) (k : String) :
    liveTriggers (registerJob s k) k = liveTriggers s k + 1 ∧
    ∀ j ∈ s.jobs, j.running = true → j ∈ (registerJob s k).jobs := by
  constructor
  · unfold liveTriggers registerJob
    rw [List.filter_append]
    simp
  · intro j hj _
    unfold registerJob
    simp only [List.mem_append]
    exact Or.inl hj

theorem register_does_not_cancel_witness :
    liveTriggers (registerJob (registerJob initCron (reminderKey 5))
        (reminderKey 5)) (reminderKey 5)
      = liveTriggers (registerJob initCron (reminderKey 5)) (reminderKey 5) + 1 ∧
    (⟨0, reminderKey 5, true⟩ : CronJob)
      ∈ (registerJob (registerJob initCron (reminderKey 5))
          (reminderKey 5)).jobs :=
  ⟨(register_does_not_cancel (registerJob initCron (reminderKey 5))
      (reminderKey 5)).1,
   (register_does_not_cancel (registerJob initCron (reminderKey 5))
      (reminderKey 5)).2 ⟨0, reminderKey 5, true⟩ (by decide) rfl⟩

theorem queryLogs_full_dump (db : Db) :
    (queryLogs db emptyFilter none (allViews db).length).logs
      = mergedLogs db emptyFilter none := by
  have hid : (allViews db).filter (keepV none) = allViews db :=
    List.filter_eq_self.mpr (fun a _ => rfl)
  have hlen : (mergedLogs db emptyFilter none).length = (allViews db).length := by
    rw [(mergedLogs_perm_empty db none).length_eq, hid]
  show pageLogs db emptyFilter none (allViews db).length = _
  unfold pageLogs pageSlice
  rw [List.take_of_length_le (by omega)]
  rw [if_neg (by omega)]

/-- Every stored row shows up in an unfiltered, uncursored `queryLogs` call
whose limit covers the whole store. -/
theorem mem_queryLogs_full {db : Db} {v : LogView} (hv : v ∈ allViews db) :
    v ∈ (queryLogs db emptyFilter none (allViews db).length).logs := by
  rw [queryLogs_full_dump]
  have hid : (allViews db).filter (keepV none) = allViews db :=
    List.filter_eq_self.mpr (fun a _ => rfl)
  have hperm := mergedLogs_perm_empty db none
  rw [hid] at hperm
  exact hperm.mem_iff.mpr hv

/-- `cutoff` of `rotateLogs`: `maxAge` days before `now` (timestamps in
seconds). -/
def rotCutoff (now maxAge : Nat) : Nat := now - maxAge * 86400

/-- The combined number of `send_logs` rows with `sent_at < cutoff` and
`activity_logs` rows with `created_at < cutoff`, as counted before any
delete. -/
def archivedCount (db : Db) (now maxAge : Nat) : Nat :=
  (db.send_logs.filter fun r => decide (r.sent_at < rotCutoff now maxAge)).length
    + (db.activity_logs.filter fun r =>
        decide (r.created_at < rotCutoff now maxAge)).length

/-- `db.rotateLogs(maxAge)` of `database.js`: count the qualifying rows of
both tables; if the combined count is zero resolve 0 with no writes;
otherwise delete the qualifying rows from both tables, insert one
`log_rotation` marker with the combined count, and resolve the count. -/
def rotateLogs (db : Db) (now maxAge : Nat) : Db × Nat :=
  if archivedCount db now maxAge = 0 then (db, 0)
  else
    (⟨db.send_logs.filter fun r => !decide (r.sent_at < rotCutoff now maxAge),
      db.activity_logs.filter fun r =>
        !decide (r.created_at < rotCutoff now maxAge),
      db.log_rotation
        ++ [⟨(db.log_rotation.map RotationRow.id).foldr max 0 + 1,
            "logs_combined", now, archivedCount db now maxAge⟩]⟩,
     archivedCount db now maxAge)

/-- C6: with no row older than the cutoff, `rotateLogs` returns 0 and writes
nothing; otherwise it deletes exactly the rows older than the cutoff from
both tables, keeps no old row, appends exactly one RotationMarker whose
`records_archived` is the combined deleted count, returns that count, and
every newer row remains present and queryable afterwards. -/
theorem rotate_spec (db : Db) (now maxAge : Nat) :
    ((∀ r ∈ db.send_logs, ¬ r.sent_at < rotCutoff now maxAge) →
     (∀ a ∈ db.activity_logs, ¬ a.created_at < rotCutoff now maxAge) →
     rotateLogs db now maxAge = (db, 0)) ∧
    ((rotateLogs db now maxAge).2 = archivedCount db now maxAge) ∧
    (archivedCount db now maxAge ≠ 0 →
      (rotateLogs db now maxAge).1.send_logs
        = db.send_logs.filter
            (fun r => !decide (r.sent_at < rotCutoff now maxAge)) ∧
      (rotateLogs db now maxAge).1.activity_logs
        = db.activity_logs.filter
            (fun r => !decide (r.created_at < rotCutoff now maxAge)) ∧
      (rotateLogs db now maxAge).1.log_rotation
        = db.log_rotation
          ++ [⟨(db.log_rotation.map RotationRow.id).foldr max 0 + 1,
              "logs_combined", now, archivedCount db now maxAge⟩] ∧
      (∀ r ∈ (rotateLogs db now maxAge).1.send_logs,
        ¬ r.sent_at < rotCutoff now maxAge) ∧
      (∀ a ∈ (rotateLogs db now maxAge).1.activity_logs,
        ¬ a.created_at < rotCutoff now maxAge)) ∧
    (∀ r ∈ db.send_logs, ¬ r.sent_at < rotCutoff now maxAge →
      sendToView r ∈ (queryLogs (rotateLogs db now maxAge).1 emptyFilter none
        (allViews (rotateLogs db now maxAge).1).length).logs) ∧
    (∀ a ∈ db.activity_logs, ¬ a.created_at < rotCutoff now maxAge →
      actToView a ∈ (queryLogs (rotateLogs db now maxAge).1 emptyFilter none
        (allViews (rotateLogs db now maxAge).1).length).logs) := by
  by_cases h0 : archivedCount db now maxAge = 0
  · have hrot : rotateLogs db now maxAge = (db, 0) := by
      unfold rotateLogs
      rw [if_pos h0]
    refine ⟨fun _ _ => hrot, by rw [hrot]; exact h0.symm,
      fun hne => absurd h0 hne, ?_, ?_⟩
    · intro r hr _
      rw [hrot]
      exact mem_queryLogs_full (List.mem_append_left _ (List.mem_map_of_mem _ hr))
    · intro a ha _
      rw [hrot]
      exact mem_queryLogs_full (List.mem_append_right _ (List.mem_map_of_mem _ ha))
  · have hrot : rotateLogs db now maxAge
        = (⟨db.send_logs.filter fun r => !decide (r.sent_at < rotCutoff now maxAge),
            db.activity_logs.filter fun r =>
              !decide (r.created_at < rotCutoff now maxAge),
            db.log_rotation
              ++ [⟨(db.log_rotation.map RotationRow.id).foldr max 0 + 1,
                  "logs_combined", now, archivedCount db now maxAge⟩]⟩,
           archivedCount db now maxAge) := by
      unfold rotateLogs
      rw [if_neg h0]
    have hkeepS : ∀ r ∈ (rotateLogs db now maxAge).1.send_logs,
        ¬ r.sent_at < rotCutoff now maxAge := by
      intro r hr
      rw [hrot] at hr
      have := (List.mem_filter.mp hr).2
      simpa using this
    have hkeepA : ∀ a ∈ (rotateLogs db now maxAge).1.activity_logs,
        ¬ a.created_at < rotCutoff now maxAge := by
      intro a ha
      rw [hrot] at ha
      have := (List.mem_filter.mp ha).2
      simpa using this
    refine ⟨?_, by rw [hrot], fun _ => ⟨by rw [hrot], by rw [hrot], by rw [hrot],
      hkeepS, hkeepA⟩, ?_, ?_⟩
    · intro hs ha
      exfalso
      apply h0
      unfold archivedCount
      rw [List.filter_eq_nil_iff.mpr (by intro r hr; simpa using hs r hr),
        List.filter_eq_nil_iff.mpr (by intro a ha2; simpa using ha a ha2)]
      rfl
    · intro r hr hnew
      apply mem_queryLogs_full
      apply List.mem_append_left
      apply List.mem_map_of_mem
      rw [hrot]
      exact List.mem_filter.mpr ⟨hr, by simpa using hnew⟩
    · intro a ha hnew
      apply mem_queryLogs_full
      apply List.mem_append_right
      apply List.mem_map_of_mem
      rw [hrot]
      exact List.mem_filter.mpr ⟨ha, by simpa using hnew⟩

/-- A store with one old and one new send row and one old activity row,
against `now` = day 40 and `maxAge` = 30 days (cutoff = day 10). -/
def dbR : Db :=
  ⟨[⟨1, "reminder", none, none, none, none, "sent", none, none, none, 0, 0⟩,
    ⟨2, "send_once", none, none, none, none, "sent", none, none, none, 0,
      1000000⟩],
   [⟨1, "activity:bot_started", none, none, none, none, none, none, none,
     none, none, none, 5⟩],
   []⟩

theorem rotate_spec_witness :
    (rotateLogs dbR 3456000 30).2 = archivedCount dbR 3456000 30 ∧
    (rotateLogs dbR 3456000 30).1.send_logs
      = dbR.send_logs.filter
          (fun r => !decide (r.sent_at < rotCutoff 3456000 30)) :=
  ⟨(rotate_spec dbR 3456000 30).2.1,
   ((rotate_spec dbR 3456000 30).2.2.1 (by decide)).1⟩

/-- A row of the `tasks` table (after the `active`/`updated_at`
migrations). -/
structure TaskRow where
  id : Nat
  content : String
  channel_id : String
  user_id : String
  time : String
  days : Option String
  created_at : Nat
  active : Bool
  updated_at : Option Nat
deriving Repr, DecidableEq

/-- A row of the `reminders` table (after the `active`/`updated_at`
migrations). -/
structure ReminderRow where
  id : Nat
  content : String
  channel_id : String
  user_id : String
  time : String
  created_at : Nat
  active : Bool
  updated_at : Option Nat
deriving Repr, DecidableEq

/-- The state the bot process and the dashboard share: the five tables plus
the scheduler registry. -/
structure BotState where
  tasks : List TaskRow
  reminders : List ReminderRow
  send_logs : List SendRow
  activity_logs : List ActivityRow
  cron : CronState
deriving Repr, DecidableEq

/-- Responses of `POST /api/logs/{id}/retry`. -/
inductive RetryResp where
  | notFoundLog
  | missingRef
  | notFoundSource
  | unsupportedKind
  | retried
  | serverError
deriving Repr, DecidableEq

/-- JavaScript truthiness of `log.ref_id`: `null` and `0` are falsy. -/
def truthyRef : Option Nat → Bool
  | none => false
  | some n => !(n == 0)

/-- `POST /api/logs/{id}/retry` (dashboard route): fetch the send-log row
with this id and `status = 'failed'` (404 if absent); for kind `reminder` or
`task`, reject a falsy `ref_id` (400), fetch the source row by `ref_id` (404
if gone), rebuild the prefixed content and replay it through the bot's
`/send-once`; any other kind is rejected (400).  A failed replay surfaces as
500, after `/send-once` has logged its own failed entry. -/
def retryPost (st : BotState) (logId : Nat) (channelFound : Bool)
    (outcome : SendOutcome) (now : Nat) : BotState × RetryResp :=
  match st.send_logs.find? (fun l => l.id == logId && l.status == "failed") with
  | none => (st, .notFoundLog)
  | some log =>
    if log.kind == "reminder" then
      if !truthyRef log.ref_id then (st, .missingRef)
      else
        match st.reminders.find? (fun r => some r.id == log.ref_id) with
        | none => (st, .notFoundSource)
        | some rem =>
          let res := sendOnce st.send_logs ("⏰ **Reminder:** " ++ rem.content)
            rem.channel_id channelFound outcome now
          ({ st with send_logs := res.1 },
            match res.2 with
            | .ok _ => .retried
            | _ => .serverError)
    else if log.kind == "task" then
      if !truthyRef log.ref_id then (st, .missingRef)
      else
        match st.tasks.find? (fun t => some t.id == log.ref_id) with
        | none => (st, .notFoundSource)
        | some tk =>
          let res := sendOnce st.send_logs ("📝 **Task:** " ++ tk.content)
            tk.channel_id channelFound outcome now
          ({ st with send_logs := res.1 },
            match res.2 with
            | .ok _ => .retried
            | _ => .serverError)
    else (st, .unsupportedKind)

/-- The reminder-kind success path of the retry route, fully reduced. -/
theorem retryPost_success_reminder {st : BotState} {logId : Nat} {now : Nat}
    {log : SendRow} {rem : ReminderRow} {mid : String}
    (hfind : st.send_logs.find? (fun l => l.id == logId && l.status == "failed")
      = some log)
    (hk : log.kind = "reminder") (htr : truthyRef log.ref_id = true)
    (hfr : st.reminders.find? (fun r => some r.id == log.ref_id) = some rem) :
    retryPost st logId true (.sent mid) now
      = ({ st with send_logs := st.send_logs
            ++ [⟨nextSendId st.send_logs, "send_once", some "http_api",
                some rem.channel_id, none,
                some ("⏰ **Reminder:** " ++ rem.content), "sent", none,
                some mid, none, 0, now⟩] }, .retried) := by
  have hb : (log.kind == "reminder") = true := by rw [hk]; decide
  unfold retryPost
  rw [hfind]
  simp only [hb, htr, Bool.not_true, Bool.false_eq_true, if_false, if_true, hfr]
  rfl

/-- The task-kind success path of the retry route, fully reduced. -/
theorem retryPost_success_task {st : BotState} {logId : Nat} {now : Nat}
    {log : SendRow} {tk : TaskRow} {mid : String}
    (hfind : st.send_logs.find? (fun l => l.id == logId && l.status == "failed")
      = some log)
    (hk : log.kind = "task") (htr : truthyRef log.ref_id = true)
    (hft : st.tasks.find? (fun t => some t.id == log.ref_id) = some tk) :
    retryPost st logId true (.sent mid) now
      = ({ st with send_logs := st.send_logs
            ++ [⟨nextSendId st.send_logs, "send_once", some "http_api",
                some tk.channel_id, none,
                some ("📝 **Task:** " ++ tk.content), "sent", none,
                some mid, none, 0, now⟩] }, .retried) := by
  have hb1 : (log.kind == "reminder") = false := by rw [hk]; decide
  have hb2 : (log.kind == "task") = true := by rw [hk]; decide
  unfold retryPost
  rw [hfind]
  simp only [hb1, hb2, htr, Bool.not_true, Bool.false_eq_true, if_false,
    if_true, hft]
  rfl

/-- C5: retry fails with NotFound unless a `status = failed` send-log row
with that id exists; fails with a 400 condition when the row's kind is
outside `{task, reminder}` or its `ref_id` is falsy; fails with NotFound
when the referenced reminder/task is gone; in every failure case the state
is completely unchanged; and a successful retry appends exactly one new
SendLogEntry, leaving all prior rows (the original failed entry included)
and the source tables untouched. -/
theorem retry_spec (st : BotState) (logId : Nat) (cf : Bool)
    (o : SendOutcome) (now : Nat) :
    (st.send_logs.find? (fun l => l.id == logId && l.status == "failed") = none →
      retryPost st logId cf o now = (st, .notFoundLog)) ∧
    (∀ log, st.send_logs.find?
        (fun l => l.id == logId && l.status == "failed") = some log →
      (log.kind ≠ "reminder" → log.kind ≠ "task" →
        retryPost st logId cf o now = (st, .unsupportedKind)) ∧
      ((log.kind = "reminder" ∨ log.kind = "task") → log.ref_id = none →
        retryPost st logId cf o now = (st, .missingRef)) ∧
      (log.kind = "reminder" → truthyRef log.ref_id = true →
        st.reminders.find? (fun r => some r.id == log.ref_id) = none →
        retryPost st logId cf o now = (st, .notFoundSource)) ∧
      (log.kind = "task" → truthyRef log.ref_id = true →
        st.tasks.find? (fun t => some t.id == log.ref_id) = none →
        retryPost st logId cf o now = (st, .notFoundSource)) ∧
      (∀ rem mid, log.kind = "reminder" → truthyRef log.ref_id = true →
        st.reminders.find? (fun r => some r.id == log.ref_id) = some rem →
        cf = true → o = .sent mid →
        (retryPost st logId cf o now).1.send_logs
          = st.send_logs
            ++ [⟨nextSendId st.send_logs, "send_once", some "http_api",
                some rem.channel_id, none,
                some ("⏰ **Reminder:** " ++ rem.content), "sent", none,
                some mid, none, 0, now⟩] ∧
        (retryPost st logId cf o now).2 = .retried ∧
        (retryPost st logId cf o now).1.tasks = st.tasks ∧
        (retryPost st logId cf o now).1.reminders = st.reminders) ∧
      (∀ tk mid, log.kind = "task" → truthyRef log.ref_id = true →
        st.tasks.find? (fun t => some t.id == log.ref_id) = some tk →
        cf = true → o = .sent mid →
        (retryPost st logId cf o now).1.send_logs
          = st.send_logs
            ++ [⟨nextSendId st.send_logs, "send_once", some "http_api",
                some tk.channel_id, none,
                some ("📝 **Task:** " ++ tk.content), "sent", none,
                some mid, none, 0, now⟩] ∧
        (retryPost st logId cf o now).2 = .retried ∧
        (retryPost st logId cf o now).1.tasks = st.tasks ∧
        (retryPost st logId cf o now).1.reminders = st.reminders)) := by
  constructor
  · intro hfind
    unfold retryPost
    rw [hfind]
  · intro log hfind
    refine ⟨?_, ?_, ?_, ?_, ?_, ?_⟩
    · intro h1 h2
      have hb1 : (log.kind == "reminder") = false := by
        simp only [beq_eq_false_iff_ne, ne_eq]
        exact h1
      have hb2 : (log.kind == "task") = false := by
        simp only [beq_eq_false_iff_ne, ne_eq]
        exact h2
      unfold retryPost
      rw [hfind]
      simp [hb1, hb2]
    · intro hk href
      have htr : truthyRef log.ref_id = false := by rw [href]; rfl
      rcases hk with hk | hk
      · have hb : (log.kind == "reminder") = true := by rw [hk]; decide
        unfold retryPost
        rw [hfind]
        simp [hb, htr]
      · have hb1 : (log.kind == "reminder") = false := by rw [hk]; decide
        have hb2 : (log.kind == "task") = true := by rw [hk]; decide
        unfold retryPost
        rw [hfind]
        simp [hb1, hb2, htr]
    · intro hk htr hfr
      have hb : (log.kind == "reminder") = true := by rw [hk]; decide
      unfold retryPost
      rw [hfind]
      simp [hb, htr, hfr]
    · intro hk htr hft
      have hb1 : (log.kind == "reminder") = false := by rw [hk]; decide
      have hb2 : (log.kind == "task") = true := by rw [hk]; decide
      unfold retryPost
      rw [hfind]
      simp [hb1, hb2, htr, hft]
    · intro rem mid hk htr hfr hcf ho
      subst hcf
      subst ho
      rw [retryPost_success_reminder hfind hk htr hfr]
      exact ⟨rfl, rfl, rfl, rfl⟩
    · intro tk mid hk htr hft hcf ho
      subst hcf
      subst ho
      rw [retryPost_success_task hfind hk htr hft]
      exact ⟨rfl, rfl, rfl, rfl⟩

/-- A state with one reminder and one failed reminder-kind send-log row
referencing it. -/
def stR : BotState :=
  ⟨[],
   [⟨7, "drink water", "chan1", "user1", "09:00", 0, true, none⟩],
   [⟨3, "reminder", some "cron", some "chan1", some "user1",
     some "⏰ **Reminder:** drink water", "failed", some "boom", none,
     some 7, 0, 50⟩],
   [],
   initCron⟩

theorem retry_spec_witness :
    (retryPost stR 3 true (SendOutcome.sent "m9") 60).2 = RetryResp.retried ∧
    (retryPost stR 3 true (SendOutcome.sent "m9") 60).1.send_logs.length
      = stR.send_logs.length + 1 := by
  have h := ((retry_spec stR 3 true (SendOutcome.sent "m9") 60).2
      ⟨3, "reminder", some "cron", some "chan1", some "user1",
        some "⏰ **Reminder:** drink water", "failed", some "boom", none,
        some 7, 0, 50⟩ (by decide)).2.2.2.2.1
      ⟨7, "drink water", "chan1", "user1", "09:00", 0, true, none⟩ "m9"
      rfl (by decide) (by decide) rfl rfl
  refine ⟨h.2.1, ?_⟩
  rw [h.1]
  simp

/-- C10: the fresh SendLogEntry of a successful retry always has kind
`send_once`, a null `ref_id` and `retry_count = 0`, whatever the original
failed entry carried, because the replay is routed through the generic
`/send-once` endpoint. -/
theorem retry_entry_send_once (st : BotState) (logId : Nat) (now : Nat) :
    (∀ log rem mid,
      st.send_logs.find? (fun l => l.id == logId && l.status == "failed")
        = some log →
      log.kind = "reminder" → truthyRef log.ref_id = true →
      st.reminders.find? (fun r => some r.id == log.ref_id) = some rem →
      ∃ e, (retryPost st logId true (.sent mid) now).1.send_logs.getLast?
          = some e ∧
        e.kind = "send_once" ∧ e.ref_id = none ∧ e.retry_count = 0) ∧
    (∀ log tk mid,
      st.send_logs.find? (fun l => l.id == logId && l.status == "failed")
        = some log →
      log.kind = "task" → truthyRef log.ref_id = true →
      st.tasks.find? (fun t => some t.id == log.ref_id) = some tk →
      ∃ e, (retryPost st logId true (.sent mid) now).1.send_logs.getLast?
          = some e ∧
        e.kind = "send_once" ∧ e.ref_id = none ∧ e.retry_count = 0) := by
  constructor
  · intro log rem mid hfind hk htr hfr
    rw [retryPost_success_reminder hfind hk htr hfr]
    exact ⟨⟨nextSendId st.send_logs, "send_once", some "http_api",
      some rem.channel_id, none, some ("⏰ **Reminder:** " ++ rem.content),
      "sent", none, some mid, none, 0, now⟩,
      List.getLast?_concat _, rfl, rfl, rfl⟩
  · intro log tk mid hfind hk htr hft
    rw [retryPost_success_task hfind hk htr hft]
    exact ⟨⟨nextSendId st.send_logs, "send_once", some "http_api",
      some tk.channel_id, none, some ("📝 **Task:** " ++ tk.content),
      "sent", none, some mid, none, 0, now⟩,
      List.getLast?_concat _, rfl, rfl, rfl⟩

/-- A state with one task and one failed task-kind send-log row referencing
it, the original row carrying `retry_count = 1`. -/
def stT : BotState :=
  ⟨[⟨4, "standup", "chanT", "userT", "09:30", some "1,2", 0, true, none⟩],
   [],
   [⟨9, "task", some "cron", some "chanT", some "userT",
     some "📝 **Task:** standup", "failed", some "err", none, some 4, 1, 70⟩],
   [],
   initCron⟩

theorem retry_entry_send_once_witness :
    ∃ e, (retryPost stT 9 true (SendOutcome.sent "m2") 80).1.send_logs.getLast?
        = some e ∧
      e.kind = "send_once" ∧ e.ref_id = none ∧ e.retry_count = 0 :=
  (retry_entry_send_once stT 9 80).2
    ⟨9, "task", some "cron", some "chanT", some "userT",
      some "📝 **Task:** standup", "failed", some "err", none, some 4, 1, 70⟩
    ⟨4, "standup", "chanT", "userT", "09:30", some "1,2", 0, true, none⟩
    "m2" (by decide) rfl (by decide) (by decide)

/-- Split a character list on a separator character (the semantics of
`split(sep)` for a one-character separator). -/
def splitOnChar (sep : Char) : List Char → List (List Char)
  | [] => [[]]
  | c :: cs =>
    let r := splitOnChar sep cs
    if c == sep then [] :: r
    else
      match r with
      | [] => [[c]]
      | h :: t => (c :: h) :: t

/-- `s.split(sep)` for a one-character separator. -/
def splitStr (s : String) (sep : Char) : List String :=
  (splitOnChar sep s.data).map fun l => ⟨l⟩

def isWsp (c : Char) : Bool :=
  c == ' ' || c == '\t' || c == '\n' || c == '\r'

/-- `trim()`. -/
def trimChars (l : List Char) : List Char :=
  ((l.dropWhile isWsp).reverse.dropWhile isWsp).reverse

/-- Regex class `[0-9]`. -/
def digitC (c : Char) : Bool := decide ('0' ≤ c) && decide (c ≤ '9')

/-- Regex class `[0-5]`. -/
def zeroTo5 (c : Char) : Bool := decide ('0' ≤ c) && decide (c ≤ '5')

/-- Regex class `[0-3]`. -/
def zeroTo3 (c : Char) : Bool := decide ('0' ≤ c) && decide (c ≤ '3')

/-- Regex class `[01]`. -/
def zeroOr1 (c : Char) : Bool := c == '0' || c == '1'

/-- The slash-command time check `/^([01]?[0-9]|2[0-3]):[0-5][0-9]$/`. -/
def timeRegexTest (s : String) : Bool :=
  match s.data with
  | [h1, c, m1, m2] => c == ':' && digitC h1 && zeroTo5 m1 && digitC m2
  | [h1, h2, c, m1, m2] =>
      c == ':' && ((zeroOr1 h1 && digitC h2) || (h1 == '2' && zeroTo3 h2))
        && zeroTo5 m1 && digitC m2
  | _ => false

/-- Value of a list of decimal digits. -/
def digitsVal (l : List Char) : Nat :=
  l.foldl (fun n c => n * 10 + (c.toNat - 48)) 0

/-- `parseInt` on a trimmed token: an optional sign followed by leading
decimal digits; no leading digit is `NaN` (`none`). -/
def jsParseInt (s : String) : Option Int :=
  match s.data with
  | '-' :: rest =>
      let ds := rest.takeWhile digitC
      if ds.isEmpty then none else some (-(digitsVal ds : Int))
  | l =>
      let l2 := if l.head? == some '+' then l.tail else l
      let ds := l2.takeWhile digitC
      if ds.isEmpty then none else some ((digitsVal ds : Int))

/-- The slash-command day validation: split on commas, trim each token,
every token must `parseInt` to a number in `0..6`. -/
def validDaysTest (days : String) : Bool :=
  (splitStr days ',').all fun d =>
    match jsParseInt ⟨trimChars d.data⟩ with
    | none => false
    | some n => decide (0 ≤ n) && decide (n ≤ 6)

/-- `Number(x)` on a time component as used to build the cron pattern:
empty after trimming is 0, all-digit strings are their value, anything else
is `NaN` (`none`). -/
def jsNumberNat (s : String) : Option Nat :=
  let t := trimChars s.data
  if t.isEmpty then some 0
  else if t.all digitC then some (digitsVal t) else none

/-- `time.split(':')[0]` through `Number`. -/
def cronFieldHour (time : String) : Option Nat :=
  ((splitStr time ':')[0]?).bind jsNumberNat

/-- `time.split(':')[1]` through `Number` (`undefined` when absent). -/
def cronFieldMinute (time : String) : Option Nat :=
  ((splitStr time ':')[1]?).bind jsNumberNat

/-- `scheduleReminder`: build `${minutes} ${hours} * * *` and start the job;
`cron.schedule` throws when a field is NaN or out of range. -/
def cronScheduleReminderOp (s : CronState) (id : Nat) (time : String) :
    Except String CronState :=
  match cronFieldHour time, cronFieldMinute time with
  | some h, some m =>
      if h ≤ 23 ∧ m ≤ 59 then .ok (registerJob s (reminderKey id))
      else .error "invalid cron pattern"
  | _, _ => .error "invalid cron pattern"

/-- Day-of-week tokens as `scheduleTask` passes them into the cron pattern
(`node-cron` accepts 0..7). -/
def cronDaysOk (days : Option String) : Bool :=
  match days with
  | none => true
  | some ds => (splitStr ds ',').all fun d =>
      match jsParseInt ⟨trimChars d.data⟩ with
      | none => false
      | some n => decide (0 ≤ n) && decide (n ≤ 7)

/-- `scheduleTask`: like `cronScheduleReminderOp` with an optional
day-of-week field. -/
def cronScheduleTaskOp (s : CronState) (id : Nat) (time : String)
    (days : Option String) : Except String CronState :=
  match cronFieldHour time, cronFieldMinute time with
  | some h, some m =>
      if h ≤ 23 ∧ m ≤ 59 ∧ cronDaysOk days = true then
        .ok (registerJob s (taskKey id))
      else .error "invalid cron pattern"
  | _, _ => .error "invalid cron pattern"

/-- Replies a slash-command handler edits into the interaction. -/
inductive Reply where
  | ok (msg : String)
  | err (msg : String)
deriving Repr, DecidableEq

def nextTaskId (t : List TaskRow) : Nat := (t.map TaskRow.id).foldr max 0 + 1

def nextRemId (t : List ReminderRow) : Nat :=
  (t.map ReminderRow.id).foldr max 0 + 1

/-- `handleAddTask` (slash command): validate the time against the regex and
the day tokens; only then insert the row, schedule the job and log; a
scheduling throw is caught after the insert. -/
def handleAddTask (st : BotState) (content time : String) (days : Option String)
    (channelId userId : String) (now : Nat) : BotState × Reply :=
  if !timeRegexTest time then
    (st, .err "❌ Invalid time format. Please use HH:MM format (24-hour).")
  else if (match days with | some d => !validDaysTest d | none => false) then
    (st, .err "❌ Invalid days format. Use comma-separated numbers 0-6 (0=Sunday, 1=Monday, etc.).")
  else
    let id := nextTaskId st.tasks
    let st1 := { st with tasks := (st.tasks
      ++ [(⟨id, content, channelId, userId, time, days, now, true, none⟩ : TaskRow)]) }
    match cronScheduleTaskOp st1.cron id time days with
    | .ok c2 =>
        ({ st1 with
            cron := c2
            activity_logs := (logActivity st1.activity_logs
              "activity:task_added"
              (some "discord_slash") (some channelId) (some userId)
              (some "success") none none (some id) (some "add_task") none none
              now) },
         .ok "✅ Task added!")
    | .error e =>
        ({ st1 with activity_logs := (logActivity st1.activity_logs
            "activity:task_add_failed" (some "discord_slash") (some channelId)
            (some userId) (some "failed") (some e) none none (some "add_task")
            none none now) },
         .err "❌ Failed to add task. Please try again.")

/-- `handleAddReminder` (slash command): validates the time only. -/
def handleAddReminder (st : BotState) (content time : String)
    (channelId userId : String) (now : Nat) : BotState × Reply :=
  if !timeRegexTest time then
    (st, .err "❌ Invalid time format. Please use HH:MM format (24-hour).")
  else
    let id := nextRemId st.reminders
    let st1 := { st with reminders := (st.reminders
      ++ [(⟨id, content, channelId, userId, time, now, true, none⟩ : ReminderRow)]) }
    match cronScheduleReminderOp st1.cron id time with
    | .ok c2 =>
        ({ st1 with
            cron := c2
            activity_logs := (logActivity st1.activity_logs
              "activity:reminder_added" (some "discord_slash") (some channelId)
              (some userId) (some "success") none none (some id)
              (some "add_reminder") none none now) },
         .ok "✅ Daily reminder added!")
    | .error e =>
        ({ st1 with activity_logs := (logActivity st1.activity_logs
            "activity:reminder_add_failed" (some "discord_slash")
            (some channelId) (some userId) (some "failed") (some e) none none
            (some "add_reminder") none none now) },
         .err "❌ Failed to add reminder. Please try again.")

/-- `POST /add-reminder`: no validation at all — insert the row, then
schedule; a scheduling throw yields 500 but the row stays. -/
def httpAddReminder (st : BotState) (content channelId userId time : String)
    (now : Nat) : BotState × HttpResp :=
  let id := nextRemId st.reminders
  let st1 := { st with reminders := (st.reminders
    ++ [(⟨id, content, channelId, userId, time, now, true, none⟩ : ReminderRow)]) }
  match cronScheduleReminderOp st1.cron id time with
  | .ok c2 =>
      ({ st1 with
          cron := c2
          activity_logs := (logActivity st1.activity_logs
            "activity:reminder_added" (some "http_api") (some channelId)
            (some userId) none none none (some id) none none none now) },
       .ok (toString id))
  | .error e => (st1, .serverError e)

/-- `POST /add-task`: no validation at all — insert the row, then schedule;
a scheduling throw yields 500 but the row stays. -/
def httpAddTask (st : BotState) (content channelId userId time : String)
    (days : Option String) (now : Nat) : BotState × HttpResp :=
  let id := nextTaskId st.tasks
  let st1 := { st with tasks := (st.tasks
    ++ [(⟨id, content, channelId, userId, time, days, now, true, none⟩ : TaskRow)]) }
  match cronScheduleTaskOp st1.cron id time days with
  | .ok c2 =>
      ({ st1 with
          cron := c2
          activity_logs := (logActivity st1.activity_logs
            "activity:task_added"
            (some "http_api") (some channelId) (some userId) none none none
            (some id) none none none now) },
       .ok (toString id))
  | .error e => (st1, .serverError e)

def emptyBot : BotState := ⟨[], [], [], [], initCron⟩

/-- C7 counterexample: the HTTP entry points perform no validation: with the
malformed time `"99:99"` (hour 99, minute 99) the reminder and task rows are
persisted anyway, refuting the claim that every entry point rejects such
input before any row is persisted. -/
theorem http_add_persists_invalid_time :
    timeRegexTest "99:99" = false ∧
    (httpAddReminder emptyBot "hello" "chan" "user" "99:99" 0).1.reminders.length
      = 1 ∧
    (httpAddTask emptyBot "hello" "chan" "user" "99:99" none 0).1.tasks.length
      = 1 ∧
    ¬ (httpAddReminder emptyBot "hello" "chan" "user" "99:99" 0).1.reminders
      = [] := by
  decide

/-- C7 amended: the slash-command handlers reject a malformed time or day
input before any row is persisted or any schedule registered (state
unchanged, validation reply); the HTTP `/add-reminder` and `/add-task`
endpoints validate nothing and always persist the row, even for inputs the
slash commands would reject (an invalid cron pattern then only prevents the
trigger and yields 500). -/
theorem add_validation_spec (st : BotState) (content time : String)
    (days : Option String) (channelId userId : String) (now : Nat) :
    (timeRegexTest time = false →
      handleAddTask st content time days channelId userId now
        = (st, .err "❌ Invalid time format. Please use HH:MM format (24-hour).") ∧
      handleAddReminder st content time channelId userId now
        = (st, .err "❌ Invalid time format. Please use HH:MM format (24-hour).")) ∧
    (∀ d, days = some d → timeRegexTest time = true → validDaysTest d = false →
      handleAddTask st content time days channelId userId now
        = (st, .err "❌ Invalid days format. Use comma-separated numbers 0-6 (0=Sunday, 1=Monday, etc.).")) ∧
    ((httpAddReminder st content channelId userId time now).1.reminders.length
      = st.reminders.length + 1) ∧
    ((httpAddTask st content channelId userId time days now).1.tasks.length
      = st.tasks.length + 1) := by
  refine ⟨?_, ?_, ?_, ?_⟩
  · intro h
    have h2 : (!timeRegexTest time) = true := by rw [h]; rfl
    constructor
    · unfold handleAddTask
      rw [if_pos h2]
    · unfold handleAddReminder
      rw [if_pos h2]
  · intro d hd ht hv
    subst hd
    have h1 : ¬ ((!timeRegexTest time) = true) := by rw [ht]; simp
    have h2 : (!validDaysTest d) = true := by rw [hv]; rfl
    unfold handleAddTask
    rw [if_neg h1, if_pos h2]
  · simp only [httpAddReminder]
    split
    · simp
    · simp
  · simp only [httpAddTask]
    split
    · simp
    · simp

theorem add_validation_spec_witness :
    handleAddTask emptyBot "x" "25:00" none "c" "u" 0
      = (emptyBot,
         Reply.err "❌ Invalid time format. Please use HH:MM format (24-hour).") ∧
    (httpAddReminder emptyBot "x" "c" "u" "08:30" 5).1.reminders.length
      = emptyBot.reminders.length + 1 :=
  ⟨((add_validation_spec emptyBot "x" "25:00" none "c" "u" 0).1 (by decide)).1,
   (add_validation_spec emptyBot "x" "08:30" none "c" "u" 5).2.2.1⟩

/-- The observable steps of the delete-reminder handler, in execution
order. -/
inductive DelEvent where
  | dbDelete (id : Nat)
  | stopTrigger (k : String)
  | logged
  | ack
deriving Repr, DecidableEq

/-- `handleDeleteReminder` (slash command).  The source prepares
`SELECT id, content FROM reminders WHERE id = ? AND user_id = ?` and binds
`const reminder = checkStmt.get(reminderId, interaction.user.id)` — but
under `node-sqlite3` `Statement#get` is asynchronous and returns the
Statement object itself, never the row.  `reminder` is therefore always
truthy: the `if (!reminder)` not-found/ownership branch is dead code, the
handler always runs `DELETE FROM reminders WHERE id = ?` (no owner
constraint), stops the cron job held under `reminder_<id>` if present, logs,
and acknowledges success, interpolating `reminder.content` — a property the
Statement lacks — as the string `undefined`.  The `userId` argument is bound
into the dead query and has no effect on behaviour. -/
def handleDeleteReminder (st : BotState) (reminderId : Nat)
    (channelId userId : String) (now : Nat) :
    BotState × List DelEvent × Reply :=
  let st1 := { st with reminders :=
    (st.reminders.filter fun r => !(r.id == reminderId)) }
  let st2 := { st1 with cron := unregisterJob st1.cron (reminderKey reminderId) }
  let st3 := { st2 with activity_logs := (logActivity st2.activity_logs
    "activity:reminder_deleted" (some "discord_slash") (some channelId)
    (some userId) (some "success") none none (some reminderId)
    (some "delete_reminder") none none now) }
  (st3,
   [DelEvent.dbDelete reminderId,
    DelEvent.stopTrigger (reminderKey reminderId), DelEvent.logged,
    DelEvent.ack],
   .ok ("✅ Reminder \"undefined\" (ID: "
     ++ toString reminderId ++ ") has been deleted."))

/-- A state with reminder 7 owned by `"u"` and its trigger registered. -/
def stD : BotState :=
  ⟨[], [⟨7, "hydrate", "chan", "u", "09:00", 0, true, none⟩], [], [],
   registerJob initCron (reminderKey 7)⟩

/-- C8: the claimed NotFound failure path does not exist in the program.
At a store whose only reminder (id 7) belongs to `"u"`, a delete of id 7
issued by `"mallory"` — a caller matching no row by id+owner — still deletes
the row, cancels its live trigger, and is acknowledged as success with the
content rendered as `undefined`; a delete of the nonexistent id 9 on an
empty store is acknowledged as success too.  The ownership check the claim
describes is dead because `Statement#get` returns the truthy Statement
object, not the row. -/
theorem delete_without_owner_check :
    stD.reminders.find? (fun r => r.id == 7 && r.user_id == "mallory")
      = none ∧
    (handleDeleteReminder stD 7 "chan" "mallory" 10).1.reminders = [] ∧
    liveTriggers (handleDeleteReminder stD 7 "chan" "mallory" 10).1.cron
      (reminderKey 7) = 0 ∧
    (handleDeleteReminder stD 7 "chan" "mallory" 10).2.2
      = Reply.ok "✅ Reminder \"undefined\" (ID: 7) has been deleted." ∧
    (handleDeleteReminder emptyBot 9 "chan" "u" 10).2.2
      = Reply.ok "✅ Reminder \"undefined\" (ID: 9) has been deleted." := by
  decide

/-- The two migrated columns of a `tasks`/`reminders` row: `active` (added
with `DEFAULT 1`) and `updated_at` (added nullable, backfilled later). -/
structure MigRow where
  activeVal : Option Nat
  updatedAtVal : Option Nat
deriving Repr, DecidableEq

/-- A `tasks`/`reminders` table as the migration step sees it: which of the
two migrated columns exist, and the per-row values of those columns. -/
structure MigTable where
  hasActive : Bool
  hasUpdatedAt : Bool
  rows : List MigRow
deriving Repr, DecidableEq

/-- `ALTER TABLE ... ADD COLUMN active BOOLEAN DEFAULT 1`: when the column
already exists the `duplicate column name` error is swallowed and the table
is untouched; a new column fills every existing row with the default 1. -/
def addActiveCol (t : MigTable) : MigTable :=
  if t.hasActive then t
  else ⟨true, t.hasUpdatedAt, t.rows.map fun r => ⟨some 1, r.updatedAtVal⟩⟩

/-- `ALTER TABLE ... ADD COLUMN updated_at TEXT`: no default, existing rows
get NULL; a duplicate column is likewise skipped. -/
def addUpdatedAtCol (t : MigTable) : MigTable :=
  if t.hasUpdatedAt then t
  else ⟨t.hasActive, true, t.rows.map fun r => ⟨r.activeVal, none⟩⟩

/-- One row under `UPDATE ... SET updated_at = ? WHERE updated_at IS NULL`. -/
def backfillRow (now : Nat) (r : MigRow) : MigRow :=
  if r.updatedAtVal = none then ⟨r.activeVal, some now⟩ else r

/-- `populateUpdatedAtFields` on one table. -/
def backfillUpdatedAt (t : MigTable) (now : Nat) : MigTable :=
  ⟨t.hasActive, t.hasUpdatedAt, t.rows.map (backfillRow now)⟩

/-- The `send_logs` side of the migration: the `retry_count INTEGER DEFAULT
0` column. -/
structure SendMig where
  hasRetryCount : Bool
  retryVals : List (Option Nat)
deriving Repr, DecidableEq

/-- The `activity_logs` side of the migration: the nullable `metadata TEXT`
column. -/
structure ActMig where
  hasMetadata : Bool
  metaVals : List (Option String)
deriving Repr, DecidableEq

def addRetryCountCol (x : SendMig) : SendMig :=
  if x.hasRetryCount then x else ⟨true, x.retryVals.map fun _ => some 0⟩

def addMetadataCol (x : ActMig) : ActMig :=
  if x.hasMetadata then x else ⟨true, x.metaVals.map fun _ => none⟩

/-- The schema slice the migration step may change. -/
structure MigDb where
  tasks : MigTable
  reminders : MigTable
  send : SendMig
  activity : ActMig
deriving Repr, DecidableEq

/-- `runMigrations` followed by `populateUpdatedAtFields` of `database.js`:
the six `ALTER TABLE` migrations in order (duplicate columns skipped), then
the backfill of `updated_at` on `tasks` and `reminders` with the current
timestamp for rows where it is NULL. -/
def runMigrations (d : MigDb) (now : Nat) : MigDb :=
  ⟨backfillUpdatedAt (addUpdatedAtCol (addActiveCol d.tasks)) now,
   backfillUpdatedAt (addUpdatedAtCol (addActiveCol d.reminders)) now,
   addRetryCountCol d.send, addMetadataCol d.activity⟩

theorem addActiveCol_hasActive (t : MigTable) :
    (addActiveCol t).hasActive = true := by
  unfold addActiveCol
  by_cases h : t.hasActive = true
  · rw [if_pos h]
    exact h
  · rw [if_neg h]

theorem addUpdatedAtCol_hasActive (t : MigTable) :
    (addUpdatedAtCol t).hasActive = t.hasActive := by
  unfold addUpdatedAtCol
  by_cases h : t.hasUpdatedAt = true
  · rw [if_pos h]
  · rw [if_neg h]

theorem addUpdatedAtCol_hasUpdatedAt (t : MigTable) :
    (addUpdatedAtCol t).hasUpdatedAt = true := by
  unfold addUpdatedAtCol
  by_cases h : t.hasUpdatedAt = true
  · rw [if_pos h]
    exact h
  · rw [if_neg h]

theorem backfillRow_ne_none (now : Nat) (r : MigRow) :
    (backfillRow now r).updatedAtVal ≠ none := by
  unfold backfillRow
  by_cases h : r.updatedAtVal = none
  · rw [if_pos h]
    simp
  · rw [if_neg h]
    exact h

/-- Migrating a `tasks`/`reminders` table a second time changes nothing. -/
theorem itemTable_migrate_idem (t : MigTable) (t1 t2 : Nat) :
    backfillUpdatedAt (addUpdatedAtCol (addActiveCol
      (backfillUpdatedAt (addUpdatedAtCol (addActiveCol t)) t1))) t2
      = backfillUpdatedAt (addUpdatedAtCol (addActiveCol t)) t1 := by
  set b := backfillUpdatedAt (addUpdatedAtCol (addActiveCol t)) t1 with hb
  have h1 : b.hasActive = true := by
    show (addUpdatedAtCol (addActiveCol t)).hasActive = true
    rw [addUpdatedAtCol_hasActive]
    exact addActiveCol_hasActive t
  have h2 : b.hasUpdatedAt = true := by
    show (addUpdatedAtCol (addActiveCol t)).hasUpdatedAt = true
    exact addUpdatedAtCol_hasUpdatedAt _
  have h3 : addActiveCol b = b := by
    unfold addActiveCol
    rw [if_pos h1]
  have h4 : addUpdatedAtCol b = b := by
    unfold addUpdatedAtCol
    rw [if_pos h2]
  rw [h3, h4]
  have h5 : b.rows.map (backfillRow t2) = b.rows := by
    have hall : ∀ r ∈ b.rows, backfillRow t2 r = r := by
      intro r hr
      have hrows : b.rows
          = (addUpdatedAtCol (addActiveCol t)).rows.map (backfillRow t1) := rfl
      rw [hrows] at hr
      obtain ⟨r0, _, hr0⟩ := List.mem_map.mp hr
      have hne : r.updatedAtVal ≠ none := by
        rw [← hr0]
        exact backfillRow_ne_none t1 r0
      unfold backfillRow
      rw [if_neg hne]
    calc b.rows.map (backfillRow t2) = b.rows.map id :=
          List.map_congr_left hall
      _ = b.rows := List.map_id b.rows
  show (⟨b.hasActive, b.hasUpdatedAt, b.rows.map (backfillRow t2)⟩ : MigTable) = b
  rw [h5]

theorem addRetryCountCol_idem (x : SendMig) :
    addRetryCountCol (addRetryCountCol x) = addRetryCountCol x := by
  by_cases h : x.hasRetryCount = true
  · have hx : addRetryCountCol x = x := by
      unfold addRetryCountCol
      rw [if_pos h]
    rw [hx, hx]
  · have hx : addRetryCountCol x = ⟨true, x.retryVals.map fun _ => some 0⟩ := by
      unfold addRetryCountCol
      rw [if_neg h]
    rw [hx]
    unfold addRetryCountCol
    rw [if_pos rfl]

theorem addMetadataCol_idem (x : ActMig) :
    addMetadataCol (addMetadataCol x) = addMetadataCol x := by
  by_cases h : x.hasMetadata = true
  · have hx : addMetadataCol x = x := by
      unfold addMetadataCol
      rw [if_pos h]
    rw [hx, hx]
  · have hx : addMetadataCol x = ⟨true, x.metaVals.map fun _ => none⟩ := by
      unfold addMetadataCol
      rw [if_neg h]
    rw [hx]
    unfold addMetadataCol
    rw [if_pos rfl]

theorem runMigrations_twice (d : MigDb) (t1 t2 : Nat) :
    runMigrations (runMigrations d t1) t2 = runMigrations d t1 := by
  show MigDb.mk
      (backfillUpdatedAt (addUpdatedAtCol (addActiveCol
        (backfillUpdatedAt (addUpdatedAtCol (addActiveCol d.tasks)) t1))) t2)
      (backfillUpdatedAt (addUpdatedAtCol (addActiveCol
        (backfillUpdatedAt (addUpdatedAtCol (addActiveCol d.reminders)) t1))) t2)
      (addRetryCountCol (addRetryCountCol d.send))
      (addMetadataCol (addMetadataCol d.activity))
      = runMigrations d t1
  rw [itemTable_migrate_idem, itemTable_migrate_idem, addRetryCountCol_idem,
    addMetadataCol_idem]
  rfl

/-- C9: the migration step is idempotent — running it twice, even with a
different backfill timestamp, equals running it once; adding an
already-present column is not an error and leaves the table untouched; the
backfill writes the default only into rows whose `updated_at` is NULL, so
pre-existing rows are filled exactly once and values already present are
never overwritten. -/
theorem migration_idempotent_spec (d : MigDb) (t1 t2 : Nat) :
    runMigrations (runMigrations d t1) t2 = runMigrations d t1 ∧
    (∀ t : MigTable, t.hasActive = true → addActiveCol t = t) ∧
    (∀ t : MigTable, t.hasUpdatedAt = true → addUpdatedAtCol t = t) ∧
    (∀ x : SendMig, x.hasRetryCount = true → addRetryCountCol x = x) ∧
    (∀ now r, r.updatedAtVal = none →
      backfillRow now r = ⟨r.activeVal, some now⟩) ∧
    (∀ now r v, r.updatedAtVal = some v → backfillRow now r = r) := by
  refine ⟨runMigrations_twice d t1 t2, ?_, ?_, ?_, ?_, ?_⟩
  · intro t h
    unfold addActiveCol
    rw [if_pos h]
  · intro t h
    unfold addUpdatedAtCol
    rw [if_pos h]
  · intro x h
    unfold addRetryCountCol
    rw [if_pos h]
  · intro now r h
    unfold backfillRow
    rw [if_pos h]
  · intro now r v h
    unfold backfillRow
    rw [if_neg (by rw [h]; simp)]

/-- A starting schema missing the columns on `tasks`/`send_logs`, already
carrying them (with one NULL and one filled row) on `reminders`. -/
def migD : MigDb :=
  ⟨⟨false, false, [⟨none, none⟩]⟩,
   ⟨true, true, [⟨some 1, some 5⟩, ⟨some 1, none⟩]⟩,
   ⟨false, [none]⟩,
   ⟨true, [some "x"]⟩⟩

theorem migration_idempotent_spec_witness :
    runMigrations (runMigrations migD 100) 200 = runMigrations migD 100 ∧
    backfillRow 100 ⟨some 1, some 5⟩ = ⟨some 1, some 5⟩ :=
  ⟨(migration_idempotent_spec migD 100 200).1,
   (migration_idempotent_spec migD 100 200).2.2.2.2.2 100 ⟨some 1, some 5⟩ 5
     rfl⟩

end Bot
